import Mathlib

/-!
Shallow embedding of the BXS (Bitcoin-Seconds) metrics and alerting engine:
the indicator calculator and cumulative integrator from `bxs_calculator.py`
and the alert evaluator from `alerts.py`. Python floats are modelled as
exact rationals (ℚ); fallible code (indexing that can raise) returns
`Option`; the SQLite store is modelled as lists of rows and the SQL
queries as filter-and-sort over those lists.
-/

namespace BXSPaper

/-! ## Indicator calculator (`bxs_calculator.py`) -/

/-- Default floor for elapsed time, `t_min = 1_000.0`. -/
def t_min_default : ℚ := 1000

/-- Default floor for spending rate, `mu_min = 1e-6`. -/
def mu_min_default : ℚ := 1 / 1000000

/-- `compute_ssr(W, i, mu, CP, t, r, t_min, mu_min)`: the surplus-to-spending
ratio `(W + r*i - CP) / (max(t, t_min) * max(mu, mu_min))`, negatives kept. -/
def compute_ssr (W i mu CP t r t_min mu_min : ℚ) : ℚ :=
  let t_safe := max t t_min
  let mu_safe := max mu mu_min
  let numerator := W + r * i - CP
  numerator / (t_safe * mu_safe)

/-- `compute_f(i, A, A0, I, I0, SSR)`: productive flow
`i * (A / max(A0, 1e-9)) * (I / max(I0, 1e-12)) * SSR`. -/
def compute_f (i A A0 I I0 SSR : ℚ) : ℚ :=
  let A0s := max A0 (1 / 1000000000)
  let I0s := max I0 (1 / 1000000000000)
  i * (A / A0s) * (I / I0s) * SSR

/-! ## Cumulative integrator (`bxs_calculator.py`) -/

/-- The loop body of `integrate_cumulative`: running accumulator `acc`,
previous sample `prev`, and for each remaining sample `x` the update
`acc += (x + prev) * 0.5 * dt` with the new accumulator appended. -/
def integrateLoop (dt acc prev : ℚ) : List ℚ → List ℚ
  | [] => []
  | x :: xs =>
    let acc2 := acc + (x + prev) * (1 / 2) * dt
    acc2 :: integrateLoop dt acc2 x xs

/-- `integrate_cumulative(series, dt)`: trapezoidal running integral starting
at `0.0`. On the empty series the Python code evaluates `series[0]` and
raises `IndexError`, modelled as `none`. -/
def integrate_cumulative (series : List ℚ) (dt : ℚ) : Option (List ℚ) :=
  match series with
  | [] => none
  | p :: rest => some (0 :: integrateLoop dt 0 p rest)

/-- `integrate_s(f_timeseries, timestamps)`: `[0.0]` when `np.diff(timestamps)`
is empty (fewer than two timestamps), otherwise `integrate_cumulative` with
the scalar step `dt = timestamps[1] - timestamps[0]`. -/
def integrate_s (f_timeseries : List ℚ) (timestamps : List ℚ) : Option (List ℚ) :=
  match timestamps with
  | t0 :: t1 :: _ => integrate_cumulative f_timeseries (t1 - t0)
  | _ => some [0]

/-- `integrate_bxs(S_timeseries, timestamps)`: same body as `integrate_s`,
applied to the cumulative-claims series. -/
def integrate_bxs (S_timeseries : List ℚ) (timestamps : List ℚ) : Option (List ℚ) :=
  match timestamps with
  | t0 :: t1 :: _ => integrate_cumulative S_timeseries (t1 - t0)
  | _ => some [0]

/-- `compute_baseline_bxscore(W_timeseries, timestamps)`: delegates to
`integrate_bxs` on the raw holdings series. -/
def compute_baseline_bxscore (W_timeseries : List ℚ) (timestamps : List ℚ) :
    Option (List ℚ) :=
  integrate_bxs W_timeseries timestamps

/-! ## Alert evaluator (`alerts.py`) -/

/-- `ALERT_THRESHOLD_PCT = -20.0`: the decline threshold in percent. -/
def ALERT_THRESHOLD_PCT : ℚ := -20

/-- `ALERT_WINDOW_DAYS = 14`: trailing window length in days. -/
def ALERT_WINDOW_DAYS : Int := 14

/-- A row of the `wallet` table, restricted to the columns the alert rules
read (`t, W, A, SSR, f`). -/
structure WalletRow where
  t : Int
  W : ℚ
  A : ℚ
  SSR : ℚ
  f : ℚ
deriving DecidableEq

/-- A row of the `blocks` table, restricted to the columns the alert rules
read (height `h` and expansion rate `I`). -/
structure BlockRow where
  h : Int
  I : ℚ
deriving DecidableEq

/-- The SQLite store as seen by the alert evaluator: the `wallet` and
`blocks` tables, each an unordered list of rows. -/
structure DB where
  wallet : List WalletRow
  blocks : List BlockRow
deriving DecidableEq

/-- An alert dict as returned by the two rule checks: keys `t`,
`alert_type`, `severity`, `context` (the context a list of key/value
pairs, JSON dict). -/
structure Alert where
  t : Int
  alert_type : String
  severity : ℚ
  context : List (String × ℚ)
deriving DecidableEq

/-- A row of the `alerts` table as inserted by `process_alerts`:
`(t, created_at, alert_type, severity, context)`. -/
structure AlertsTableRow where
  t : Int
  created_at : Int
  alert_type : String
  severity : ℚ
  context : List (String × ℚ)
deriving DecidableEq

/-- Insert a wallet row into a list already sorted by `t` (ascending). -/
def insertByT (r : WalletRow) : List WalletRow → List WalletRow
  | [] => [r]
  | x :: xs => if r.t ≤ x.t then r :: x :: xs else x :: insertByT r xs

/-- Sort wallet rows by `t` ascending: the model of SQL `ORDER BY t`. -/
def sortByT : List WalletRow → List WalletRow
  | [] => []
  | x :: xs => insertByT x (sortByT xs)

/-- Insert a block row into a list already sorted by `h` (ascending). -/
def insertByH (r : BlockRow) : List BlockRow → List BlockRow
  | [] => [r]
  | x :: xs => if r.h ≤ x.h then r :: x :: xs else x :: insertByH r xs

/-- Sort block rows by `h` ascending: the model of SQL `ORDER BY h`. -/
def sortByH : List BlockRow → List BlockRow
  | [] => []
  | x :: xs => insertByH x (sortByH xs)

/-- The query of `check_f_decline`:
`SELECT t, f, W, A, SSR FROM wallet WHERE t >= start_t AND t <= current_t
ORDER BY t` with `start_t = current_t - ALERT_WINDOW_DAYS * 24 * 3600`. -/
def windowRows (db : DB) (current_t : Int) : List WalletRow :=
  let start_t := current_t - ALERT_WINDOW_DAYS * 24 * 3600
  sortByT (db.wallet.filter (fun r => decide (start_t ≤ r.t ∧ r.t ≤ current_t)))

/-- The query of `check_ssr_negative`:
`SELECT t, W, A, SSR, f FROM wallet WHERE t <= current_t
ORDER BY t DESC LIMIT 1` — the latest observation at or before `current_t`. -/
def latestRow (db : DB) (current_t : Int) : Option WalletRow :=
  (sortByT (db.wallet.filter (fun r => decide (r.t ≤ current_t)))).getLast?

/-- `SELECT I FROM blocks ORDER BY h DESC LIMIT 1`, with the Python fallback
`block["I"] if block else 0.0`. -/
def latestBlockI (db : DB) : ℚ :=
  match (sortByH db.blocks).getLast? with
  | some b => b.I
  | none => 0

/-- `rows[0]["f"]` of `check_f_decline` (defined whenever the length guard
has passed; defaulted to `0` otherwise). -/
def fStart (db : DB) (current_t : Int) : ℚ :=
  (((windowRows db current_t).head?).map WalletRow.f).getD 0

/-- `rows[-1]["f"]` of `check_f_decline` (defined whenever the length guard
has passed; defaulted to `0` otherwise). -/
def fCurrent (db : DB) (current_t : Int) : ℚ :=
  (((windowRows db current_t).getLast?).map WalletRow.f).getD 0

/-- `pct_change = ((f_current - f_start) / f_start) * 100.0`. -/
def pctChange (db : DB) (current_t : Int) : ℚ :=
  (fCurrent db current_t - fStart db current_t) / fStart db current_t * 100

/-- `latest = rows[-1]` of `check_f_decline` (defined whenever the length
guard has passed; defaulted to the zero row otherwise). -/
def fDeclineLatest (db : DB) (current_t : Int) : WalletRow :=
  ((windowRows db current_t).getLast?).getD ⟨0, 0, 0, 0, 0⟩

/-- `check_f_decline(conn, current_t)`: window query, length guard,
positive-start guard, threshold comparison, alert construction. -/
def check_f_decline (db : DB) (current_t : Int) : Option Alert :=
  if (windowRows db current_t).length < 2 then none
  else if fStart db current_t ≤ 0 then none
  else if pctChange db current_t ≤ ALERT_THRESHOLD_PCT then
    some ⟨current_t, "f_decline", |pctChange db current_t|,
      [("W", (fDeclineLatest db current_t).W), ("A", (fDeclineLatest db current_t).A),
       ("I", latestBlockI db), ("SSR", (fDeclineLatest db current_t).SSR),
       ("f", (fDeclineLatest db current_t).f),
       ("f_start", fStart db current_t), ("f_current", fCurrent db current_t),
       ("pct_change", pctChange db current_t)]⟩
  else none

/-- `check_ssr_negative(conn, current_t)`: latest observation at or before
`current_t`; no alert when absent or `SSR >= 0`. -/
def check_ssr_negative (db : DB) (current_t : Int) : Option Alert :=
  match latestRow db current_t with
  | none => none
  | some row =>
    if 0 ≤ row.SSR then none
    else
      some ⟨current_t, "ssr_negative", |row.SSR|,
        [("W", row.W), ("A", row.A), ("I", latestBlockI db),
         ("SSR", row.SSR), ("f", row.f)]⟩

/-- `process_alerts(conn, current_t)`: collect the results of both rule
checks (f_decline first) and return them. -/
def process_alerts (db : DB) (current_t : Int) : List Alert :=
  (check_f_decline db current_t).toList ++ (check_ssr_negative db current_t).toList

/-- The rows inserted into the `alerts` table by `process_alerts`:
`(alert["t"], current_t, alert["alert_type"], alert["severity"], context)`
for each collected alert. -/
def insertedAlertRows (db : DB) (current_t : Int) : List AlertsTableRow :=
  (process_alerts db current_t).map
    (fun a => ⟨a.t, current_t, a.alert_type, a.severity, a.context⟩)

/-! ## Concrete stores and records used as evaluation inputs -/

/-- A store with two observations 600 s apart whose `f` drops from 100 to 79
(a −21 % change), and no blocks. -/
def fdDB : DB := ⟨[⟨0, 1, 2, 3, 100⟩, ⟨600, 4, 5, 6, 79⟩], []⟩

/-- The alert `check_f_decline fdDB 600` produces. -/
def fdAlert : Alert :=
  ⟨600, "f_decline", 21,
   [("W", 4), ("A", 5), ("I", 0), ("SSR", 6), ("f", 79),
    ("f_start", 100), ("f_current", 79), ("pct_change", -21)]⟩

/-- A store with a single observation at `t = 100` with `SSR = -1/2`, and no
blocks. -/
def ssrDB : DB := ⟨[⟨100, 1, 2, -(1 / 2), 3⟩], []⟩

/-- The alert `check_ssr_negative ssrDB 1000` produces. -/
def ssrAlert : Alert :=
  ⟨1000, "ssr_negative", 1 / 2,
   [("W", 1), ("A", 2), ("I", 0), ("SSR", -(1 / 2)), ("f", 3)]⟩

/-- The row `process_alerts` inserts into the `alerts` table for `ssrDB` at
evaluation time `1000`. -/
def ssrRecord : AlertsTableRow :=
  ⟨1000, 1000, "ssr_negative", 1 / 2,
   [("W", 1), ("A", 2), ("I", 0), ("SSR", -(1 / 2)), ("f", 3)]⟩

/-! ## Helper lemmas -/

/-- The integrator loop splits over `++`: the tail of the concatenation is
integrated continuing from the final accumulator and final sample of the
head. -/
theorem integrateLoop_append (dt : ℚ) (xs : List ℚ) : ∀ (acc prev : ℚ) (ys : List ℚ),
    integrateLoop dt acc prev (xs ++ ys)
      = integrateLoop dt acc prev xs
        ++ integrateLoop dt ((integrateLoop dt acc prev xs).getLastD acc)
            (xs.getLastD prev) ys := by
  induction xs with
  | nil => intro acc prev ys; simp [integrateLoop]
  | cons x xs ih =>
    intro acc prev ys
    simp only [List.cons_append, integrateLoop, List.append_eq, List.getLastD_cons]
    rw [ih]

/-! ## Claims -/

/-- C2 counterexample: on the empty series `integrate_cumulative` evaluates
`series[0]` and raises `IndexError` (modelled as `none`); it does not return
`[0.0]`. -/
theorem integrate_cumulative_empty_raises :
    integrate_cumulative ([] : List ℚ) 600 = none ∧
    integrate_cumulative ([] : List ℚ) 600 ≠ some [0] :=
  ⟨rfl, by simp [integrate_cumulative]⟩

/-- C2 (amended): a series of length exactly 1 produces `[0.0]` with no
error, for any value and any `dt`; the empty series raises instead of
returning `[0.0]`. -/
theorem integrate_cumulative_degenerate (x dt : ℚ) :
    integrate_cumulative [x] dt = some [0] ∧
    integrate_cumulative ([] : List ℚ) dt = none :=
  ⟨rfl, rfl⟩

/-- C3: on a timestamp series with at least two entries, `integrate_s` equals
`integrate_cumulative` at the scalar step `timestamps[1] - timestamps[0]`,
whatever the later intervals are; and on timestamps `[0, 600, 1200]` with
`f = [10, 20, 10]` it returns `[0, 9000, 18000]`. -/
theorem integrate_s_uses_first_interval (f : List ℚ) (t0 t1 : ℚ) (rest : List ℚ) :
    integrate_s f (t0 :: t1 :: rest) = integrate_cumulative f (t1 - t0) ∧
    integrate_s [10, 20, 10] [0, 600, 1200] = some [0, 9000, 18000] :=
  ⟨rfl, by norm_num [integrate_s, integrate_cumulative, integrateLoop]⟩

/-- C4: `compute_ssr` with the default floors returns exactly
`(W + r*i - CP) / (max(t, 1000) * max(mu, 1e-6))`, sign preserved; and when
`t` and `mu` are at or below their floors the result equals the formula with
the floors substituted directly. -/
theorem compute_ssr_formula (W r i CP t mu : ℚ) :
    compute_ssr W i mu CP t r t_min_default mu_min_default
      = (W + r * i - CP) / (max t 1000 * max mu (1 / 1000000)) ∧
    (t ≤ 1000 → mu ≤ 1 / 1000000 →
      compute_ssr W i mu CP t r t_min_default mu_min_default
        = (W + r * i - CP) / (1000 * (1 / 1000000))) := by
  constructor
  · rfl
  · intro ht hmu
    have h1 : max t t_min_default = t_min_default := max_eq_right ht
    have h2 : max mu mu_min_default = mu_min_default := max_eq_right hmu
    simp only [compute_ssr]
    rw [h1, h2]
    norm_num [t_min_default, mu_min_default]

/-- C4 witness: the floor-substitution clause evaluated at
`W = 5, r = 3, i = 2, CP = 1, t = 0, mu = 0`. -/
theorem compute_ssr_formula_witness :
    ((0 : ℚ) ≤ 1000) ∧ ((0 : ℚ) ≤ 1 / 1000000) ∧
    compute_ssr 5 2 0 1 0 3 t_min_default mu_min_default
      = (5 + 3 * 2 - 1) / (1000 * (1 / 1000000)) :=
  ⟨by norm_num, by norm_num,
   (compute_ssr_formula 5 3 2 1 0 0).2 (by norm_num) (by norm_num)⟩

/-- C7: `compute_f` returns exactly
`i * (A / max(A0, 1e-9)) * (I / max(I0, 1e-12)) * SSR`, and doubling `SSR`
with all other inputs fixed exactly doubles the result. -/
theorem compute_f_formula (i A A0 I I0 SSR : ℚ) :
    compute_f i A A0 I I0 SSR
      = i * (A / max A0 (1 / 1000000000)) * (I / max I0 (1 / 1000000000000)) * SSR ∧
    compute_f i A A0 I I0 (2 * SSR) = 2 * compute_f i A A0 I I0 SSR := by
  refine ⟨rfl, ?_⟩
  simp only [compute_f]
  ring

/-- C8: `integrate_cumulative` is additive over concatenation at constant
`dt`: integrating `(a :: A) ++ (b :: B)` in one pass equals the one-pass
integral of `a :: A` followed by the loop over `b :: B` continued from the
final running total of `a :: A`'s integral and from `a :: A`'s final sample. -/
theorem integrate_cumulative_additive (a b dt : ℚ) (A B : List ℚ) :
    integrate_cumulative ((a :: A) ++ (b :: B)) dt
      = some ((0 :: integrateLoop dt 0 a A)
          ++ integrateLoop dt ((0 :: integrateLoop dt 0 a A).getLastD 0)
              ((a :: A).getLastD 0) (b :: B)) ∧
    integrate_cumulative (a :: A) dt = some (0 :: integrateLoop dt 0 a A) := by
  refine ⟨?_, rfl⟩
  show some (0 :: integrateLoop dt 0 a (A ++ (b :: B))) = _
  rw [integrateLoop_append]
  have h2 : (0 :: integrateLoop dt 0 a A).getLastD 0
      = (integrateLoop dt 0 a A).getLastD 0 := List.getLastD_cons ..
  have h3 : (a :: A).getLastD 0 = A.getLastD a := List.getLastD_cons ..
  rw [h2, h3]
  rfl

/-- C9: `integrate_s`, `integrate_bxs` and `compute_baseline_bxscore` agree
on every value series and every timestamp series. -/
theorem integrators_extensionally_equal (vs ts : List ℚ) :
    integrate_s vs ts = integrate_bxs vs ts ∧
    integrate_bxs vs ts = compute_baseline_bxscore vs ts :=
  ⟨rfl, rfl⟩

/-- C5: `check_f_decline` returns an alert iff the trailing 14-day window
holds at least 2 observations, the earliest `f` in the window is strictly
positive and the percent change is at most −20; a returned alert has type
`"f_decline"` and severity `|pct_change|`; otherwise it returns nothing and
raises nothing. -/
theorem check_f_decline_spec (db : DB) (cur : Int) :
    ((check_f_decline db cur).isSome ↔
      2 ≤ (windowRows db cur).length ∧ 0 < fStart db cur ∧ pctChange db cur ≤ -20) ∧
    (∀ a, check_f_decline db cur = some a →
      a.alert_type = "f_decline" ∧ a.severity = |pctChange db cur|) := by
  unfold check_f_decline
  split_ifs with h1 h2 h3
  · exact ⟨⟨fun h => by simp at h, fun h => absurd h.1 (by omega)⟩,
      fun a ha => by simp at ha⟩
  · exact ⟨⟨fun h => by simp at h, fun h => absurd h.2.1 (not_lt.mpr h2)⟩,
      fun a ha => by simp at ha⟩
  · refine ⟨⟨fun _ => ⟨by omega, lt_of_not_le h2, h3⟩, fun _ => by simp⟩, ?_⟩
    intro a ha
    rw [Option.some_inj] at ha
    subst ha
    exact ⟨rfl, rfl⟩
  · exact ⟨⟨fun h => by simp at h, fun h => absurd h.2.2 h3⟩,
      fun a ha => by simp at ha⟩

/-- C5 witness: on `fdDB` at evaluation time 600 the rule fires and the
alert has type `"f_decline"` and severity `|pct_change| = 21`. -/
theorem check_f_decline_spec_witness :
    check_f_decline fdDB 600 = some fdAlert ∧
    fdAlert.alert_type = "f_decline" ∧ fdAlert.severity = |pctChange fdDB 600| := by
  have h1 : check_f_decline fdDB 600 = some fdAlert := by
    norm_num [check_f_decline, windowRows, sortByT, insertByT, fStart, fCurrent,
      pctChange, latestBlockI, sortByH, fDeclineLatest, ALERT_WINDOW_DAYS,
      ALERT_THRESHOLD_PCT, fdDB, fdAlert]
  exact ⟨h1, (check_f_decline_spec fdDB 600).2 fdAlert h1⟩

/-- C6: `check_ssr_negative` returns an alert iff there is an observation at
or before `current_t` and the most recent one has `SSR < 0`; the alert has
type `"ssr_negative"` and severity `|SSR|` of that observation; `SSR = 0`
does not trigger and an empty store yields nothing without error. -/
theorem check_ssr_negative_spec (db : DB) (cur : Int) :
    ((check_ssr_negative db cur).isSome ↔
      ∃ r, latestRow db cur = some r ∧ r.SSR < 0) ∧
    (∀ a r, check_ssr_negative db cur = some a → latestRow db cur = some r →
      a.alert_type = "ssr_negative" ∧ a.severity = |r.SSR|) := by
  unfold check_ssr_negative
  cases h : latestRow db cur with
  | none =>
    refine ⟨⟨fun hh => by simp at hh, ?_⟩, fun a r ha => by simp at ha⟩
    rintro ⟨r, hr, -⟩
    simp at hr
  | some row =>
    dsimp only
    split_ifs with hge
    · refine ⟨⟨fun hh => by simp at hh, ?_⟩, fun a r ha => by simp at ha⟩
      rintro ⟨r, hr, hneg⟩
      rw [Option.some_inj] at hr
      subst hr
      exact absurd hneg (not_lt.mpr hge)
    · refine ⟨⟨fun _ => ⟨row, rfl, lt_of_not_le hge⟩, fun _ => by simp⟩, ?_⟩
      intro a r ha hr
      rw [Option.some_inj] at ha hr
      subst ha
      subst hr
      exact ⟨rfl, rfl⟩

/-- C6 witness: a single observation with `SSR = -1/2` produces the alert
with severity `1/2` at evaluation time 1000. -/
theorem check_ssr_negative_spec_witness :
    check_ssr_negative ssrDB 1000 = some ssrAlert ∧
    latestRow ssrDB 1000 = some ⟨100, 1, 2, -(1 / 2), 3⟩ ∧
    ssrAlert.alert_type = "ssr_negative" ∧
    ssrAlert.severity = |(⟨100, 1, 2, -(1 / 2), 3⟩ : WalletRow).SSR| := by
  have h1 : check_ssr_negative ssrDB 1000 = some ssrAlert := by
    norm_num [check_ssr_negative, latestRow, sortByT, insertByT, latestBlockI,
      sortByH, ssrDB, ssrAlert]
  have h2 : latestRow ssrDB 1000 = some ⟨100, 1, 2, -(1 / 2), 3⟩ := by
    norm_num [latestRow, sortByT, insertByT, ssrDB]
  exact ⟨h1, h2, (check_ssr_negative_spec ssrDB 1000).2 ssrAlert ⟨100, 1, 2, -(1 / 2), 3⟩ h1 h2⟩

/-- C10: every `f_decline` alert has severity at least 20, every
`ssr_negative` alert has strictly positive severity, and every row written
to the `alerts` table by `process_alerts` has strictly positive severity. -/
theorem alerts_severity_positive (db : DB) (cur : Int) :
    (∀ a, check_f_decline db cur = some a → 20 ≤ a.severity) ∧
    (∀ a, check_ssr_negative db cur = some a → 0 < a.severity) ∧
    (∀ r ∈ insertedAlertRows db cur, 0 < r.severity) := by
  have hf : ∀ a, check_f_decline db cur = some a → 20 ≤ a.severity := by
    intro a ha
    unfold check_f_decline at ha
    split_ifs at ha with h1 h2 h3
    rw [Option.some_inj] at ha
    subst ha
    show 20 ≤ |pctChange db cur|
    have hth : pctChange db cur ≤ -20 := h3
    rw [abs_of_nonpos (by linarith)]
    linarith
  have hs : ∀ a, check_ssr_negative db cur = some a → 0 < a.severity := by
    intro a ha
    unfold check_ssr_negative at ha
    cases h : latestRow db cur with
    | none => rw [h] at ha; simp at ha
    | some row =>
      rw [h] at ha
      dsimp only at ha
      split_ifs at ha with hge
      rw [Option.some_inj] at ha
      subst ha
      show 0 < |row.SSR|
      exact abs_pos.mpr (ne_of_lt (lt_of_not_le hge))
  refine ⟨hf, hs, ?_⟩
  intro r hr
  simp only [insertedAlertRows, List.mem_map] at hr
  obtain ⟨a, haMem, rfl⟩ := hr
  simp only [process_alerts, List.mem_append] at haMem
  dsimp only
  rcases haMem with h | h
  · have h20 := hf a (by simpa using h)
    linarith
  · exact hs a (by simpa using h)

/-- C10 witness: a firing `f_decline` alert with severity 21, a firing
`ssr_negative` alert with severity 1/2, and the inserted row for the latter,
each with the bound discharged. -/
theorem alerts_severity_positive_witness :
    check_f_decline fdDB 600 = some fdAlert ∧ 20 ≤ fdAlert.severity ∧
    check_ssr_negative ssrDB 1000 = some ssrAlert ∧ 0 < ssrAlert.severity ∧
    ssrRecord ∈ insertedAlertRows ssrDB 1000 ∧ 0 < ssrRecord.severity := by
  have h1 : check_f_decline fdDB 600 = some fdAlert := by
    norm_num [check_f_decline, windowRows, sortByT, insertByT, fStart, fCurrent,
      pctChange, latestBlockI, sortByH, fDeclineLatest, ALERT_WINDOW_DAYS,
      ALERT_THRESHOLD_PCT, fdDB, fdAlert]
  have h2 : check_ssr_negative ssrDB 1000 = some ssrAlert := by
    norm_num [check_ssr_negative, latestRow, sortByT, insertByT, latestBlockI,
      sortByH, ssrDB, ssrAlert]
  have h0 : check_f_decline ssrDB 1000 = none := by
    norm_num [check_f_decline, windowRows, sortByT, insertByT, ALERT_WINDOW_DAYS, ssrDB]
  have h3 : ssrRecord ∈ insertedAlertRows ssrDB 1000 := by
    simp [insertedAlertRows, process_alerts, h0, h2, ssrRecord, ssrAlert]
  exact ⟨h1, (alerts_severity_positive fdDB 600).1 fdAlert h1, h2,
    (alerts_severity_positive ssrDB 1000).2.1 ssrAlert h2,
    h3, (alerts_severity_positive ssrDB 1000).2.2 ssrRecord h3⟩

/-- C1 counterexample: on a store whose only observation sits at `t = 100`,
evaluating at `current_t = 1000` persists an alert row stamped `t = 1000`,
not the triggering observation's timestamp 100; the persisted `t` is never
earlier than `current_t`. -/
theorem alert_t_not_event_timestamp :
    (insertedAlertRows ssrDB 1000).map AlertsTableRow.t = [1000] ∧
    (latestRow ssrDB 1000).map WalletRow.t = some 100 ∧
    (1000 : Int) ≠ 100 := by
  have h2 : check_ssr_negative ssrDB 1000 = some ssrAlert := by
    norm_num [check_ssr_negative, latestRow, sortByT, insertByT, latestBlockI,
      sortByH, ssrDB, ssrAlert]
  have h0 : check_f_decline ssrDB 1000 = none := by
    norm_num [check_f_decline, windowRows, sortByT, insertByT, ALERT_WINDOW_DAYS, ssrDB]
  refine ⟨by simp [insertedAlertRows, process_alerts, h0, h2, ssrAlert], ?_, by decide⟩
  norm_num [latestRow, sortByT, insertByT, ssrDB]

/-- C1 (amended): every persisted alert row is stamped
`created_at = current_t` and also `t = current_t` — both rule checks stamp
`t` with the evaluation time, not with the event timestamp. -/
theorem insertedAlertRows_stamps (db : DB) (cur : Int) :
    ∀ r ∈ insertedAlertRows db cur, r.created_at = cur ∧ r.t = cur := by
  intro r hr
  simp only [insertedAlertRows, List.mem_map] at hr
  obtain ⟨a, haMem, rfl⟩ := hr
  refine ⟨rfl, ?_⟩
  simp only [process_alerts, List.mem_append] at haMem
  dsimp only
  rcases haMem with h | h
  · have h' : check_f_decline db cur = some a := by simpa using h
    unfold check_f_decline at h'
    split_ifs at h' with h1 h2 h3
    rw [Option.some_inj] at h'
    subst h'
    rfl
  · have h' : check_ssr_negative db cur = some a := by simpa using h
    unfold check_ssr_negative at h'
    cases hlr : latestRow db cur with
    | none => rw [hlr] at h'; simp at h'
    | some row =>
      rw [hlr] at h'
      dsimp only at h'
      split_ifs at h' with hge
      rw [Option.some_inj] at h'
      subst h'
      rfl

/-- C1 witness: the row inserted for `ssrDB` at evaluation time 1000 carries
`created_at = 1000` and `t = 1000`. -/
theorem insertedAlertRows_stamps_witness :
    ssrRecord ∈ insertedAlertRows ssrDB 1000 ∧
    (ssrRecord.created_at = 1000 ∧ ssrRecord.t = 1000) := by
  have h2 : check_ssr_negative ssrDB 1000 = some ssrAlert := by
    norm_num [check_ssr_negative, latestRow, sortByT, insertByT, latestBlockI,
      sortByH, ssrDB, ssrAlert]
  have h0 : check_f_decline ssrDB 1000 = none := by
    norm_num [check_f_decline, windowRows, sortByT, insertByT, ALERT_WINDOW_DAYS, ssrDB]
  have h3 : ssrRecord ∈ insertedAlertRows ssrDB 1000 := by
    simp [insertedAlertRows, process_alerts, h0, h2, ssrRecord, ssrAlert]
  exact ⟨h3, insertedAlertRows_stamps ssrDB 1000 ssrRecord h3⟩

end BXSPaper
